import Mathlib

/-
  Verification development for the netbox_network_canvas_plugin views
  (src/netbox_network_canvas_plugin/views.py).

  Shallow embedding conventions:
  - Django/NetBox records become Lean structures; attribute probing via
    hasattr is modelled with Option fields (none = attribute absent) and
    Bool flags where only presence matters.
  - Python string operations: s.lower() becomes pyLower, the membership
    test sub in s becomes pyIn sub s.
  - Python truthiness of an optional integer id (None and 0 are falsy)
    is modelled explicitly where the code relies on it.
  - Database/ORM failures are modelled by explicit flags on the input
    (Cable.aRaises, Cable.bRaises, Store.loaderFails); the corresponding
    try/except blocks of the code become total branches on those flags.
-/

/-- Python s.lower(), character by character. -/
def pyLower (s : String) : String :=
  String.mk (s.data.map Char.toLower)

/-- Substring occurrence on character lists: does the needle occur
somewhere in the haystack (Python in operator semantics, with the empty
needle occurring in every string). -/
def listHasSub (needle : List Char) : List Char → Bool
  | [] => needle.isEmpty
  | c :: rest => needle.isPrefixOf (c :: rest) || listHasSub needle rest

/-- Python sub in hay for strings. -/
def pyIn (sub hay : String) : Bool :=
  listHasSub sub.data hay.data

/-- Python str(x) if x else dflt for an optional string attribute
(an empty string is falsy). -/
def pyStrOr (o : Option String) (dflt : String) : String :=
  match o with
  | some s => if s = "" then dflt else s
  | none => dflt

/-- Python float(x) if x else None for an optional numeric attribute
(zero is falsy); lengths are modelled as naturals. -/
def pyOptNum (o : Option Nat) : Option Nat :=
  match o with
  | some n => if n = 0 then none else some n
  | none => none

/-- The object a CableTermination's nested termination attribute points at
(typically an Interface): an optional device attribute and a name. -/
structure NestedObj where
  device : Option Nat
  name : String
  deriving Repr, DecidableEq

/-- One element of a cable side's termination collection, with the
attributes the views probe for: a nested termination object, a direct
device attribute, an id attribute (presence only), a name attribute
(hasName records presence, name its value) and the str() fallback. -/
structure Term where
  nested : Option NestedObj
  device : Option Nat
  hasId : Bool
  hasName : Bool
  name : String
  strRepr : String
  deriving Repr, DecidableEq

/-- A cable record: id, the two termination collections, flags recording
whether traversing a side raises a database error, and the serialized
attributes. -/
structure Cable where
  cid : Nat
  aTerms : List Term
  bTerms : List Term
  aRaises : Bool
  bRaises : Bool
  ctype : Option String
  status : Option String
  length : Option Nat
  deriving Repr, DecidableEq

/-- A device_type record: model string and manufacturer name (none when
the manufacturer attribute is null). -/
structure DTypeRec where
  model : String
  manufacturer : Option String
  deriving Repr, DecidableEq

/-- A site reference carried by a device. -/
structure SiteRef where
  sid : Nat
  sname : String
  deriving Repr, DecidableEq

/-- A device record with the attributes read by the views (none models a
null foreign key). -/
structure DeviceRec where
  did : Nat
  name : String
  deviceType : Option DTypeRec
  role : Option String
  site : Option SiteRef
  status : Option String
  interfaceCount : Nat
  primaryIp4 : Option String
  primaryIp6 : Option String
  deriving Repr, DecidableEq

/-- An interface record as read by TopologyDataView. -/
structure InterfaceRec where
  iid : Nat
  name : String
  deviceId : Nat
  deviceName : String
  itype : String
  enabled : Bool
  connected : Bool
  deriving Repr, DecidableEq

/-- The data the views read from the database, plus a flag modelling a
failure of the aggregate query (the exception caught by the outermost
try/except of each builder). -/
structure Store where
  devices : List DeviceRec
  interfaces : List InterfaceRec
  cables : List Cable
  loaderFails : Option String
  deriving Repr, DecidableEq

/-- views.py 174 (and 642): the lower-cased role name used by the
classifiers, empty when the device has no role. -/
def role_lower (d : DeviceRec) : String :=
  match d.role with
  | some r => pyLower r
  | none => ""

namespace DashboardView

/-- views.py 168-200, DashboardView._get_device_type: ordered substring
rules over the lower-cased role name, then over the lower-cased model
string; devices without a device_type short-circuit to unknown. -/
def get_device_type (d : DeviceRec) : String :=
  match d.deviceType with
  | none => "unknown"
  | some dt =>
    let model := pyLower dt.model
    let role := role_lower d
    if pyIn "switch" role then "switch"
    else if pyIn "router" role then "router"
    else if pyIn "firewall" role || pyIn "security" role then "firewall"
    else if pyIn "access point" role || pyIn "ap" role || pyIn "wireless" role then "ap"
    else if pyIn "server" role || pyIn "vm" role || pyIn "virtual" role then "server"
    else if ["switch", "catalyst", "nexus", "ex-", "qfx"].any (fun x => pyIn x model) then "switch"
    else if ["router", "isr", "asr", "mx-", "srx"].any (fun x => pyIn x model) then "router"
    else if ["firewall", "pa-", "asa", "fortigate"].any (fun x => pyIn x model) then "firewall"
    else if ["ap-", "access point", "wireless", "wifi"].any (fun x => pyIn x model) then "ap"
    else if ["server", "poweredge", "proliant", "vm"].any (fun x => pyIn x model) then "server"
    else "unknown"

/-- views.py 202-213, DashboardView._get_device_icon: fixed mapping from
category to glyph, defaulting to the unknown glyph. -/
def get_device_icon (t : String) : String :=
  if t = "switch" then "⚡"
  else if t = "router" then "🔀"
  else if t = "firewall" then "🛡️"
  else if t = "ap" then "📶"
  else if t = "server" then "💻"
  else if t = "vm" then "🖥️"
  else if t = "unknown" then "❓"
  else "❓"

end DashboardView

/-- An edge emitted by DashboardView._get_topology_data (views.py 129-136). -/
structure SimpleEdge where
  cid : Nat
  source : Nat
  target : Nat
  ctype : String
  status : String
  length : Option Nat
  deriving Repr, DecidableEq

/-- An edge emitted by EnhancedDashboardView._process_cable_connection
(views.py 618-628). -/
structure Edge where
  cid : Nat
  source : Nat
  target : Nat
  ctype : String
  status : String
  length : Option Nat
  a_interface : String
  b_interface : String
  logical : Bool
  deriving Repr, DecidableEq

namespace DashboardView

/-- views.py 116-126 (one side): walk the termination collection, take the
device id of the first termination that has a device attribute, and stop
there. Only the direct device attribute is probed in this view. -/
def resolve_side : List Term → Option Nat
  | [] => none
  | t :: ts =>
    match t.device with
    | some d => some d
    | none => resolve_side ts

/-- views.py 109-140, the per-cable body of the connections loop of
DashboardView._get_topology_data: resolve both sides, then emit an edge
when both ids are truthy and both are in the loaded id list. A raised
error on either side is caught by the per-cable except and yields no
edge. Note there is no inequality check between the two ids. -/
def process_cable (ids : List Nat) (c : Cable) : Option SimpleEdge :=
  if c.aRaises || c.bRaises then none
  else
    match resolve_side c.aTerms, resolve_side c.bTerms with
    | some ai, some bi =>
      if ai != 0 && bi != 0 && ids.contains ai && ids.contains bi then
        some { cid := c.cid, source := ai, target := bi,
               ctype := pyStrOr c.ctype "ethernet",
               status := pyStrOr c.status "connected",
               length := pyOptNum c.length }
      else none
    | some _, none => none
    | none, _ => none

/-- views.py 108-140: the connections list built from the cable batch;
per-cable failures are skipped and iteration continues. -/
def connections_of (ids : List Nat) (cables : List Cable) : List SimpleEdge :=
  cables.filterMap (process_cable ids)

end DashboardView

namespace EnhancedDashboardView

/-- views.py 587-591, method 3 of the A-side probe of
_process_cable_connection: the termination is interface-shaped (has an id
attribute and a device attribute whose id is in the loaded set); the
interface name is its name attribute. -/
def resolve_a_iface (ids : List Nat) (t : Term) : Option (Nat × String) :=
  if t.hasId then
    match t.device with
    | some d => if ids.contains d then some (d, t.name) else none
    | none => none
  else none

/-- views.py 580-585, method 2 of the A-side probe: the termination has a
direct device attribute whose id is in the loaded set; the interface name
is its name attribute when present, else its str() form. On failure fall
through to method 3. -/
def resolve_a_direct (ids : List Nat) (t : Term) : Option (Nat × String) :=
  match t.device with
  | some d =>
    if ids.contains d then some (d, if t.hasName then t.name else t.strRepr)
    else resolve_a_iface ids t
  | none => resolve_a_iface ids t

/-- views.py 573-579, method 1 of the A-side probe: the termination has a
nested termination attribute exposing a device whose id is in the loaded
set. On failure fall through to method 2. -/
def resolve_a_termination (ids : List Nat) (t : Term) : Option (Nat × String) :=
  match t.nested with
  | some n =>
    match n.device with
    | some d =>
      if ids.contains d then some (d, n.name)
      else resolve_a_direct ids t
    | none => resolve_a_direct ids t
  | none => resolve_a_direct ids t

/-- views.py 571-591: walk the A-side termination collection and stop at
the first termination one of the three ordered probes resolves. -/
def resolve_a_side (ids : List Nat) : List Term → Option (Nat × String)
  | [] => none
  | t :: ts =>
    match resolve_a_termination ids t with
    | some r => some r
    | none => resolve_a_side ids ts

/-- views.py 610-614, method 3 of the B-side probe (textually duplicated
from the A-side block in the source). -/
def resolve_b_iface (ids : List Nat) (t : Term) : Option (Nat × String) :=
  if t.hasId then
    match t.device with
    | some d => if ids.contains d then some (d, t.name) else none
    | none => none
  else none

/-- views.py 603-608, method 2 of the B-side probe. -/
def resolve_b_direct (ids : List Nat) (t : Term) : Option (Nat × String) :=
  match t.device with
  | some d =>
    if ids.contains d then some (d, if t.hasName then t.name else t.strRepr)
    else resolve_b_iface ids t
  | none => resolve_b_iface ids t

/-- views.py 596-602, method 1 of the B-side probe. -/
def resolve_b_termination (ids : List Nat) (t : Term) : Option (Nat × String) :=
  match t.nested with
  | some n =>
    match n.device with
    | some d =>
      if ids.contains d then some (d, n.name)
      else resolve_b_direct ids t
    | none => resolve_b_direct ids t
  | none => resolve_b_direct ids t

/-- views.py 594-614: walk the B-side termination collection and stop at
the first termination one of the three ordered probes resolves. -/
def resolve_b_side (ids : List Nat) : List Term → Option (Nat × String)
  | [] => none
  | t :: ts =>
    match resolve_b_termination ids t with
    | some r => some r
    | none => resolve_b_side ids ts

/-- views.py 562-634, EnhancedDashboardView._process_cable_connection:
resolve both sides (errors during traversal are caught by the function's
own try/except and yield None), then return a connection only when both
ids are truthy and differ. -/
def process_cable_connection (ids : List Nat) (c : Cable) : Option Edge :=
  if c.aRaises || c.bRaises then none
  else
    match resolve_a_side ids c.aTerms, resolve_b_side ids c.bTerms with
    | some (ai, aname), some (bi, bname) =>
      if ai != 0 && bi != 0 && ai != bi then
        some { cid := c.cid, source := ai, target := bi,
               ctype := pyStrOr c.ctype "ethernet",
               status := pyStrOr c.status "connected",
               length := pyOptNum c.length,
               a_interface := aname, b_interface := bname,
               logical := false }
      else none
    | some _, none => none
    | none, _ => none

/-- views.py 371-387, the per-termination test of the A-side connectivity
filter: the same three ordered probes, used only as a boolean. -/
def a_termination_connected (ids : List Nat) (t : Term) : Bool :=
  if (match t.nested with
      | some n =>
        match n.device with
        | some d => ids.contains d
        | none => false
      | none => false) then true
  else if (match t.device with
           | some d => ids.contains d
           | none => false) then true
  else if (t.hasId && (match t.device with
                       | some d => ids.contains d
                       | none => false)) then true
  else false

/-- views.py 370-390: A-side connectivity of a cable; an error during the
traversal is caught and leaves the flag false. -/
def a_side_connected (ids : List Nat) (c : Cable) : Bool :=
  if c.aRaises then false
  else c.aTerms.any (a_termination_connected ids)

/-- views.py 394-410, the per-termination test of the B-side connectivity
filter (textually duplicated from the A-side block). -/
def b_termination_connected (ids : List Nat) (t : Term) : Bool :=
  if (match t.nested with
      | some n =>
        match n.device with
        | some d => ids.contains d
        | none => false
      | none => false) then true
  else if (match t.device with
           | some d => ids.contains d
           | none => false) then true
  else if (t.hasId && (match t.device with
                       | some d => ids.contains d
                       | none => false)) then true
  else false

/-- views.py 393-413: B-side connectivity of a cable. -/
def b_side_connected (ids : List Nat) (c : Cable) : Bool :=
  if c.bRaises then false
  else c.bTerms.any (b_termination_connected ids)

/-- views.py 364-420: the cable filter of _get_enhanced_topology_data.
When a cable connects loaded devices on both sides it is appended to the
result, by two consecutive append statements in the source (views.py
417-418), so each qualifying cable appears twice. -/
def device_connected_cables (ids : List Nat) : List Cable → List Cable
  | [] => []
  | c :: rest =>
    if a_side_connected ids c && b_side_connected ids c then
      c :: c :: device_connected_cables ids rest
    else device_connected_cables ids rest

/-- views.py 510-523 composed with the filter above: the connections list
of the enhanced builder; per-cable errors are skipped and iteration
continues. -/
def enhanced_connections (ids : List Nat) (allCables : List Cable) : List Edge :=
  (device_connected_cables ids allCables).filterMap (process_cable_connection ids)

/-- views.py 636-668, EnhancedDashboardView._get_device_type (textually
duplicated from DashboardView._get_device_type). -/
def get_device_type (d : DeviceRec) : String :=
  match d.deviceType with
  | none => "unknown"
  | some dt =>
    let model := pyLower dt.model
    let role := role_lower d
    if pyIn "switch" role then "switch"
    else if pyIn "router" role then "router"
    else if pyIn "firewall" role || pyIn "security" role then "firewall"
    else if pyIn "access point" role || pyIn "ap" role || pyIn "wireless" role then "ap"
    else if pyIn "server" role || pyIn "vm" role || pyIn "virtual" role then "server"
    else if ["switch", "catalyst", "nexus", "ex-", "qfx"].any (fun x => pyIn x model) then "switch"
    else if ["router", "isr", "asr", "mx-", "srx"].any (fun x => pyIn x model) then "router"
    else if ["firewall", "pa-", "asa", "fortigate"].any (fun x => pyIn x model) then "firewall"
    else if ["ap-", "access point", "wireless", "wifi"].any (fun x => pyIn x model) then "ap"
    else if ["server", "poweredge", "proliant", "vm"].any (fun x => pyIn x model) then "server"
    else "unknown"

/-- views.py 670-681, EnhancedDashboardView._get_device_icon. -/
def get_device_icon (t : String) : String :=
  if t = "switch" then "⚡"
  else if t = "router" then "🔀"
  else if t = "firewall" then "🛡️"
  else if t = "ap" then "📶"
  else if t = "server" then "💻"
  else if t = "vm" then "🖥️"
  else if t = "unknown" then "❓"
  else "❓"

end EnhancedDashboardView

/-- A serialized device entry of the dashboard payloads (views.py 87-104
and 478-497; display-only duplication of the site fields is kept). -/
structure DevicePayload where
  did : Nat
  name : String
  model : String
  manufacturer : String
  siteId : Option Nat
  siteName : String
  role : String
  status : String
  interfaceCount : Nat
  dtype : String
  icon : String
  primaryIp : Option String
  deriving Repr, DecidableEq

/-- One entry of the sites_data mapping: site display name, the site id
recorded when the entry was created, and the accumulated device list. -/
structure SiteGroup where
  name : String
  sid : Option Nat
  devices : List DevicePayload
  deriving Repr, DecidableEq

/-- The summary counts of the dashboard payloads. -/
structure Stats where
  total_devices : Nat
  total_sites : Nat
  total_connections : Nat
  deriving Repr, DecidableEq

/-- The payload returned by a dashboard topology builder; the connection
entry type differs between the two builders. The debug field of the
enhanced builder is diagnostic only and is not modelled. -/
structure TopologyPayload (ε : Type) where
  devices : List DevicePayload
  sites : List SiteGroup
  connections : List ε
  stats : Stats
  error : Option String
  deriving Repr, DecidableEq

/-- The site display name a device is grouped under (views.py 76, 465). -/
def site_key (d : DeviceRec) : String :=
  match d.site with
  | some s => s.sname
  | none => "Unknown Site"

/-- The site id recorded for a device's group (views.py 80, 466). -/
def site_id_of (d : DeviceRec) : Option Nat :=
  match d.site with
  | some s => some s.sid
  | none => none

/-- Insertion-ordered grouping by site display name, mirroring the Python
dict sites_data: a new key appends a group at the end (with the id of the
first device seen for it); an existing key appends the device to that
group's list. -/
def upsert_site : List SiteGroup → String → Option Nat → DevicePayload → List SiteGroup
  | [], key, sid, p => [{ name := key, sid := sid, devices := [p] }]
  | g :: gs, key, sid, p =>
    if g.name = key then { g with devices := g.devices ++ [p] } :: gs
    else g :: upsert_site gs key sid p

namespace DashboardView

/-- views.py 87-104: the device_data dict of the simple dashboard. -/
def device_payload (d : DeviceRec) : DevicePayload :=
  let t := get_device_type d
  { did := d.did,
    name := d.name,
    model := match d.deviceType with
      | some dt => dt.model
      | none => "Unknown",
    manufacturer := match d.deviceType with
      | some dt => match dt.manufacturer with
        | some m => m
        | none => "Unknown"
      | none => "Unknown",
    siteId := site_id_of d,
    siteName := site_key d,
    role := match d.role with
      | some r => r
      | none => "Unknown",
    status := pyStrOr d.status "unknown",
    interfaceCount := d.interfaceCount,
    dtype := t,
    icon := get_device_icon t,
    primaryIp := d.primaryIp4 }

/-- views.py 56-166, DashboardView._get_topology_data: cap the device and
cable batches, group devices by site display name, resolve connections,
flatten the per-site device lists and attach summary counts. A failure of
the aggregate query (the outer try/except, views.py 158-166) returns the
empty payload with an error string; the function is total, so no failure
escapes to the caller. -/
def get_topology_data (store : Store) : TopologyPayload SimpleEdge :=
  match store.loaderFails with
  | some e =>
    { devices := [], sites := [], connections := [],
      stats := { total_devices := 0, total_sites := 0, total_connections := 0 },
      error := some e }
  | none =>
    let devices := store.devices.take 200
    let device_ids := devices.map DeviceRec.did
    let cables := store.cables.take 100
    let sites_list := devices.foldl
      (fun acc d => upsert_site acc (site_key d) (site_id_of d) (device_payload d)) []
    let connections := connections_of device_ids cables
    let all_devices := sites_list.foldl (fun acc s => acc ++ s.devices) []
    { devices := all_devices,
      sites := sites_list,
      connections := connections,
      stats := { total_devices := all_devices.length,
                 total_sites := sites_list.length,
                 total_connections := connections.length },
      error := none }

end DashboardView

namespace EnhancedDashboardView

/-- views.py 478-497: the device_data dict of the enhanced dashboard (the
primary ip falls back from v4 to v6). -/
def device_payload (d : DeviceRec) : DevicePayload :=
  let t := get_device_type d
  { did := d.did,
    name := d.name,
    model := match d.deviceType with
      | some dt => dt.model
      | none => "Unknown",
    manufacturer := match d.deviceType with
      | some dt => match dt.manufacturer with
        | some m => m
        | none => "Unknown"
      | none => "Unknown",
    siteId := site_id_of d,
    siteName := site_key d,
    role := match d.role with
      | some r => r
      | none => "Unknown",
    status := pyStrOr d.status "unknown",
    interfaceCount := d.interfaceCount,
    dtype := t,
    icon := get_device_icon t,
    primaryIp := match d.primaryIp4 with
      | some ip => some ip
      | none => d.primaryIp6 }

/-- views.py 237-560, EnhancedDashboardView._get_enhanced_topology_data:
cap the batches, filter the cables that connect loaded devices (each
qualifying cable appended twice by the source), group devices by site,
process connections, flatten and attach counts. The circuits fallback
(views.py 424-451) only updates debug counters and adds no connection,
so it is not modelled; the debug dict is diagnostic only. A failure of
the aggregate query (views.py 552-560) returns the empty payload with an
error string; the function is total. -/
def get_enhanced_topology_data (store : Store) : TopologyPayload Edge :=
  match store.loaderFails with
  | some e =>
    { devices := [], sites := [], connections := [],
      stats := { total_devices := 0, total_sites := 0, total_connections := 0 },
      error := some e }
  | none =>
    let devices := store.devices.take 300
    let device_ids := devices.map DeviceRec.did
    let all_cables := store.cables.take 100
    let cables := device_connected_cables device_ids all_cables
    let sites_list := devices.foldl
      (fun acc d => upsert_site acc (site_key d) (site_id_of d) (device_payload d)) []
    let connections := cables.filterMap (process_cable_connection device_ids)
    let all_devices := sites_list.foldl (fun acc s => acc ++ s.devices) []
    { devices := all_devices,
      sites := sites_list,
      connections := connections,
      stats := { total_devices := all_devices.length,
                 total_sites := sites_list.length,
                 total_connections := connections.length },
      error := none }

end EnhancedDashboardView

/-- A serialized device of the topology data API (views.py 923-949; the
display_name and slug fields are presentation-only echoes of the same
records and are not modelled). -/
structure ApiDevice where
  did : Nat
  name : String
  model : String
  manufacturer : String
  siteId : Option Nat
  siteName : String
  role : String
  status : String
  primaryIp4 : Option String
  primaryIp6 : Option String
  deriving Repr, DecidableEq

/-- A serialized interface of the topology data API (views.py 953-961). -/
structure ApiInterface where
  iid : Nat
  name : String
  device : Nat
  deviceName : String
  itype : String
  enabled : Bool
  connected : Bool
  deriving Repr, DecidableEq

/-- The metadata block of the topology data API response (views.py
905-910; the generated_at timestamp is not modelled). -/
structure ApiMetadata where
  total_devices : Nat
  total_interfaces : Nat
  total_connections : Nat
  deriving Repr, DecidableEq

/-- The topology data API response (views.py 901-911). -/
structure ApiResponse where
  devices : List ApiDevice
  interfaces : List ApiInterface
  connections : List SimpleEdge
  metadata : ApiMetadata
  deriving Repr, DecidableEq

/-- The query parameters of TopologyDataView.get (views.py 874-876):
site and device_type are absent or falsy when none, limit is the parsed
integer parameter when supplied. -/
structure TopologyRequest where
  site : Option Nat
  device_type : Option String
  limit : Option Nat
  deriving Repr, DecidableEq

namespace TopologyDataView

/-- views.py 921-949, TopologyDataView._serialize_devices. -/
def serialize_devices (devices : List DeviceRec) : List ApiDevice :=
  devices.map (fun d =>
    { did := d.did,
      name := d.name,
      model := match d.deviceType with
        | some dt => dt.model
        | none => "Unknown",
      manufacturer := match d.deviceType with
        | some dt => match dt.manufacturer with
          | some m => m
          | none => "Unknown"
        | none => "Unknown",
      siteId := site_id_of d,
      siteName := site_key d,
      role := match d.role with
        | some r => r
        | none => "Unknown",
      status := pyStrOr d.status "unknown",
      primaryIp4 := d.primaryIp4,
      primaryIp6 := d.primaryIp6 })

/-- views.py 951-961, TopologyDataView._serialize_interfaces. -/
def serialize_interfaces (interfaces : List InterfaceRec) : List ApiInterface :=
  interfaces.map (fun i =>
    { iid := i.iid, name := i.name, device := i.deviceId,
      deviceName := i.deviceName, itype := i.itype,
      enabled := i.enabled, connected := i.connected })

/-- views.py 870-913, TopologyDataView.get: the effective limit is the
minimum of the requested limit (default 100) and 500; the device query is
filtered by the optional site and device_type parameters (the latter is a
case-insensitive substring match on the model) and then truncated to the
limit; the connections list is hard-coded empty. -/
def get (store : Store) (req : TopologyRequest) : ApiResponse :=
  let limit := min (match req.limit with
                    | some l => l
                    | none => 100) 500
  let q1 := match req.site with
    | some sid => store.devices.filter (fun d => site_id_of d = some sid)
    | none => store.devices
  let q2 := match req.device_type with
    | some dt =>
      if dt = "" then q1
      else q1.filter (fun d =>
        match d.deviceType with
        | some t => pyIn (pyLower dt) (pyLower t.model)
        | none => false)
    | none => q1
  let devices := q2.take limit
  let device_ids := devices.map DeviceRec.did
  let interfaces := store.interfaces.filter (fun i => device_ids.contains i.deviceId)
  { devices := serialize_devices devices,
    interfaces := serialize_interfaces interfaces,
    connections := [],
    metadata := { total_devices := devices.length,
                  total_interfaces := interfaces.length,
                  total_connections := 0 } }

end TopologyDataView

/-- Modelled from the spec (claim C3): resolution of one cable side as
the claim words it, with no reference to the loaded device set: per
termination, in order, (a) the nested termination attribute exposing a
device, (b) the direct device attribute, (c) the interface-shaped probe
(id attribute plus device attribute); stop at the first termination where
one of these yields a device identifier. -/
def claim_ordered_resolution : List Term → Option Nat
  | [] => none
  | t :: ts =>
    match (match t.nested with
           | some n => n.device
           | none => none) <|>
          t.device <|>
          (if t.hasId then t.device else none) with
    | some d => some d
    | none => claim_ordered_resolution ts

namespace EnhancedDashboardView

/-- Spec-style reformulation of probe (a) with the membership requirement
the code imposes, for comparison with resolve_a_termination. -/
def probe_nested (ids : List Nat) (t : Term) : Option (Nat × String) :=
  match t.nested with
  | some n =>
    match n.device with
    | some d => if ids.contains d then some (d, n.name) else none
    | none => none
  | none => none

/-- Spec-style reformulation of probe (b) with the membership requirement. -/
def probe_direct (ids : List Nat) (t : Term) : Option (Nat × String) :=
  match t.device with
  | some d =>
    if ids.contains d then some (d, if t.hasName then t.name else t.strRepr)
    else none
  | none => none

/-- Spec-style reformulation of probe (c) with the membership requirement. -/
def probe_interface_shaped (ids : List Nat) (t : Term) : Option (Nat × String) :=
  if t.hasId then
    match t.device with
    | some d => if ids.contains d then some (d, t.name) else none
    | none => none
  else none

/-- The amended claim C3 procedure in spec style: first-match traversal
where each termination is probed by the three ordered attempts, each
requiring the resolved device id to be in the loaded set. -/
def ordered_probe_with_membership (ids : List Nat) : List Term → Option (Nat × String)
  | [] => none
  | t :: ts =>
    match probe_nested ids t <|> probe_direct ids t <|> probe_interface_shaped ids t with
    | some r => some r
    | none => ordered_probe_with_membership ids ts

end EnhancedDashboardView

/-- Modelled from the spec (claim C7): the ordered role-name substring
rules alone, returning the category of the first matching rule. -/
def role_rule_result (role : String) : Option String :=
  if pyIn "switch" role then some "switch"
  else if pyIn "router" role then some "router"
  else if pyIn "firewall" role || pyIn "security" role then some "firewall"
  else if pyIn "access point" role || pyIn "ap" role || pyIn "wireless" role then some "ap"
  else if pyIn "server" role || pyIn "vm" role || pyIn "virtual" role then some "server"
  else none

/-- Modelled from the spec (claim C5): the claimed first-level fallback of
a failed loader, a reduced-fidelity device-only listing (the device
records still serialized, sites and connections dropped) carrying an
explicit error field. No such payload is produced anywhere in views.py. -/
def spec_device_only_fallback (store : Store) (e : String) : TopologyPayload SimpleEdge :=
  { devices := store.devices.map DashboardView.device_payload,
    sites := [],
    connections := [],
    stats := { total_devices := store.devices.length,
               total_sites := 0,
               total_connections := 0 },
    error := some e }

/-- The empty-topology fallback payload both builders actually return on a
loader failure (views.py 160-166 and 554-560). -/
def empty_topology_payload (ε : Type) (e : String) : TopologyPayload ε :=
  { devices := [], sites := [], connections := [],
    stats := { total_devices := 0, total_sites := 0, total_connections := 0 },
    error := some e }

/-- A termination with a direct device attribute pointing at the given
device, as produced for interface-shaped termination rows. -/
def termDev (d : Nat) : Term :=
  { nested := none, device := some d, hasId := true, hasName := true,
    name := "eth0", strRepr := "eth0" }

/-- A termination that only carries a nested termination object pointing
at device 1 (the newer NetBox CableTermination shape). -/
def termNested1 : Term :=
  { nested := some { device := some 1, name := "eth7" }, device := none,
    hasId := false, hasName := false, name := "", strRepr := "ct" }

/-- A cable whose two sides both resolve to device 1. -/
def selfCable : Cable :=
  { cid := 3, aTerms := [termDev 1], bTerms := [termDev 1],
    aRaises := false, bRaises := false,
    ctype := none, status := none, length := none }

/-- A cable connecting device 1 (A side) to device 2 (B side). -/
def c2cable : Cable :=
  { cid := 7, aTerms := [termDev 1], bTerms := [termDev 2],
    aRaises := false, bRaises := false,
    ctype := some "cat6", status := some "connected", length := some 3 }

/-- A cable connecting device 1 to device 2, used by the C4 witness. -/
def c4good : Cable :=
  { cid := 9, aTerms := [termDev 1], bTerms := [termDev 2],
    aRaises := false, bRaises := false,
    ctype := none, status := none, length := none }

/-- A cable whose A-side traversal raises a database error. -/
def c4bad : Cable :=
  { cid := 8, aTerms := [termDev 1], bTerms := [termDev 2],
    aRaises := true, bRaises := false,
    ctype := none, status := none, length := none }

/-- A device record with a role that matches the switch role rule and an
arbitrary model string. -/
def d7switch : DeviceRec :=
  { did := 4, name := "core-sw-1", deviceType := some { model := "X1000", manufacturer := none },
    role := some "Core Switch", site := none, status := none,
    interfaceCount := 0, primaryIp4 := none, primaryIp6 := none }

/-- A device record with role Core Switch but a null device_type. -/
def d7noType : DeviceRec :=
  { did := 5, name := "core-sw-2", deviceType := none,
    role := some "Core Switch", site := none, status := none,
    interfaceCount := 0, primaryIp4 := none, primaryIp6 := none }

/-- A minimal device record for the C5 stores. -/
def d5dev : DeviceRec :=
  { did := 11, name := "dev-11", deviceType := none,
    role := none, site := none, status := none,
    interfaceCount := 0, primaryIp4 := none, primaryIp6 := none }

/-- A store holding one device whose aggregate query fails. -/
def s5store : Store :=
  { devices := [d5dev], interfaces := [], cables := [],
    loaderFails := some "db down" }

/-- The structural invariant of a dashboard payload: each summary count
equals the length of the corresponding list and the flat device list is
the concatenation of the per-site device lists in site order. -/
def payload_invariant {ε : Type} (p : TopologyPayload ε) : Prop :=
  p.stats.total_devices = p.devices.length ∧
  p.stats.total_sites = p.sites.length ∧
  p.stats.total_connections = p.connections.length ∧
  p.devices = (p.sites.map SiteGroup.devices).flatten

theorem foldl_extend_eq_flatten (l : List SiteGroup) (init : List DevicePayload) :
    l.foldl (fun acc s => acc ++ s.devices) init =
      init ++ (l.map SiteGroup.devices).flatten := by
  induction l generalizing init with
  | nil => simp
  | cons s ss ih => simp [ih, List.append_assoc]

/-- C6: device classification is total and deterministic: every device
maps to one of the six fixed categories (a pure function trivially yields
the same result on repeated application), and the enhanced dashboard's
copy of the classifier agrees with the simple dashboard's. -/
theorem C6_classification_total (d : DeviceRec) :
    DashboardView.get_device_type d ∈
      ["switch", "router", "firewall", "ap", "server", "unknown"] ∧
    EnhancedDashboardView.get_device_type d = DashboardView.get_device_type d := by
  refine ⟨?_, rfl⟩
  unfold DashboardView.get_device_type
  cases d.deviceType with
  | none => simp
  | some dt =>
    simp only []
    repeat' split
    all_goals simp

/-- C7 (counterexample): the claim quantifies over every device whose
lower-cased role name matches a role rule, but a device whose device_type
is null is classified unknown before the role rules run: d7noType has
role Core Switch, whose lower-cased form matches the switch role rule,
yet the classifier returns unknown. -/
theorem C7_counterexample :
    role_rule_result (role_lower d7noType) = some "switch" ∧
    DashboardView.get_device_type d7noType = "unknown" := by
  constructor
  · decide
  · rfl

/-- C7 (amended): for every device that has a device_type and whose
lower-cased role name matches one of the ordered role rules, the
classification equals the category of the first matching role rule,
whatever the model string; in particular a device with role name Core
Switch and a device_type classifies as switch for every model string. -/
theorem C7_role_precedence :
    (∀ (d : DeviceRec) (dt : DTypeRec) (cat : String),
      d.deviceType = some dt →
      role_rule_result (role_lower d) = some cat →
      DashboardView.get_device_type d = cat) ∧
    (∀ (d : DeviceRec) (dt : DTypeRec),
      d.deviceType = some dt →
      d.role = some "Core Switch" →
      DashboardView.get_device_type d = "switch") := by
  constructor
  · intro d dt cat hdt hcat
    unfold DashboardView.get_device_type
    rw [hdt]
    unfold role_rule_result at hcat
    simp only []
    by_cases h1 : pyIn "switch" (role_lower d) = true
    · rw [if_pos h1] at hcat
      rw [if_pos h1]
      exact Option.some.inj hcat
    · rw [if_neg h1] at hcat
      rw [if_neg h1]
      by_cases h2 : pyIn "router" (role_lower d) = true
      · rw [if_pos h2] at hcat
        rw [if_pos h2]
        exact Option.some.inj hcat
      · rw [if_neg h2] at hcat
        rw [if_neg h2]
        by_cases h3 : (pyIn "firewall" (role_lower d) || pyIn "security" (role_lower d)) = true
        · rw [if_pos h3] at hcat
          rw [if_pos h3]
          exact Option.some.inj hcat
        · rw [if_neg h3] at hcat
          rw [if_neg h3]
          by_cases h4 : (pyIn "access point" (role_lower d) || pyIn "ap" (role_lower d) ||
              pyIn "wireless" (role_lower d)) = true
          · rw [if_pos h4] at hcat
            rw [if_pos h4]
            exact Option.some.inj hcat
          · rw [if_neg h4] at hcat
            rw [if_neg h4]
            by_cases h5 : (pyIn "server" (role_lower d) || pyIn "vm" (role_lower d) ||
                pyIn "virtual" (role_lower d)) = true
            · rw [if_pos h5] at hcat
              rw [if_pos h5]
              exact Option.some.inj hcat
            · rw [if_neg h5] at hcat
              exact Option.noConfusion hcat
  · intro d dt hdt hrole
    have hrl : role_lower d = pyLower "Core Switch" := by
      unfold role_lower
      rw [hrole]
    have hsw : pyIn "switch" (role_lower d) = true := by
      rw [hrl]
      decide
    unfold DashboardView.get_device_type
    rw [hdt]
    simp only []
    rw [if_pos hsw]

/-- C7 (witness): the amended theorem applied to a concrete device whose
role is Core Switch and whose model string matches no rule. -/
theorem C7_witness :
    d7switch.deviceType = some { model := "X1000", manufacturer := none } ∧
    role_rule_result (role_lower d7switch) = some "switch" ∧
    d7switch.role = some "Core Switch" ∧
    DashboardView.get_device_type d7switch = "switch" ∧
    DashboardView.get_device_type d7switch = "switch" :=
  ⟨rfl, by decide, rfl,
    C7_role_precedence.1 d7switch { model := "X1000", manufacturer := none } "switch" rfl (by decide),
    C7_role_precedence.2 d7switch { model := "X1000", manufacturer := none } rfl rfl⟩

/-- C8: for every request, the number of devices in the topology data API
response is bounded by the effective limit min(requested-or-100, 500),
hence by 500; in particular a request with limit 10000 yields at most 500
devices. -/
theorem C8_limit_cap :
    (∀ (store : Store) (req : TopologyRequest),
      (TopologyDataView.get store req).devices.length ≤
        min (match req.limit with
             | some l => l
             | none => 100) 500 ∧
      (TopologyDataView.get store req).devices.length ≤ 500) ∧
    (∀ store : Store,
      (TopologyDataView.get store
        { site := none, device_type := none, limit := some 10000 }).devices.length ≤ 500) := by
  have key : ∀ (store : Store) (req : TopologyRequest),
      (TopologyDataView.get store req).devices.length ≤
        min (match req.limit with
             | some l => l
             | none => 100) 500 := by
    intro store req
    unfold TopologyDataView.get TopologyDataView.serialize_devices
    simp only [List.length_map, List.length_take]
    omega
  refine ⟨fun store req => ⟨key store req, ?_⟩, fun store => ?_⟩
  · exact le_trans (key store req) (Nat.min_le_right _ _)
  · exact le_trans (key store { site := none, device_type := none, limit := some 10000 })
      (Nat.min_le_right _ _)

/-- C10: every response of the topology data API has an empty connections
list and a zero total_connections count, whatever device, interface and
cable records the store holds. -/
theorem C10_connections_empty (store : Store) (req : TopologyRequest) :
    (TopologyDataView.get store req).connections = [] ∧
    (TopologyDataView.get store req).metadata.total_connections = 0 :=
  ⟨rfl, rfl⟩

/-- C1 (counterexample): DashboardView._get_topology_data has no
inequality check between the two resolved device ids, so a cable whose
two sides both resolve to device 1 (present in the loaded set) produces a
self-loop edge, contrary to the claim that no edge is emitted. -/
theorem C1_counterexample :
    DashboardView.connections_of [1] [selfCable] =
      [{ cid := 3, source := 1, target := 1, ctype := "ethernet",
         status := "connected", length := none }] := by
  decide

/-- C1 (amended): in EnhancedDashboardView._process_cable_connection a
cable whose A side and B side resolve to the same device identifier
yields no connection; the simple dashboard builder lacks this check. -/
theorem C1_self_loop_suppressed (ids : List Nat) (c : Cable) (x : Nat) (n1 n2 : String)
    (ha : EnhancedDashboardView.resolve_a_side ids c.aTerms = some (x, n1))
    (hb : EnhancedDashboardView.resolve_b_side ids c.bTerms = some (x, n2)) :
    EnhancedDashboardView.process_cable_connection ids c = none := by
  unfold EnhancedDashboardView.process_cable_connection
  by_cases hr : (c.aRaises || c.bRaises) = true
  · rw [if_pos hr]
  · rw [if_neg hr, ha, hb]
    simp

/-- C1 (witness): the amended theorem applied to a concrete cable whose
two sides both resolve to device 1. -/
theorem C1_witness :
    EnhancedDashboardView.resolve_a_side [1] selfCable.aTerms = some (1, "eth0") ∧
    EnhancedDashboardView.resolve_b_side [1] selfCable.bTerms = some (1, "eth0") ∧
    EnhancedDashboardView.process_cable_connection [1] selfCable = none :=
  ⟨by decide, by decide,
    C1_self_loop_suppressed [1] selfCable 1 "eth0" "eth0" (by decide) (by decide)⟩

/-- C2 (code evaluation at the failing input): a cable whose sides
resolve to the distinct loaded devices 1 and 2 is appended twice by the
filter of _get_enhanced_topology_data (views.py 417-418), so the enhanced
builder emits two identical edges for it instead of exactly one. -/
theorem C2_duplicate_edges :
    (EnhancedDashboardView.enhanced_connections [1, 2] [c2cable]).map
      (fun e => (e.cid, e.source, e.target)) = [(7, 1, 2), (7, 1, 2)] ∧
    (EnhancedDashboardView.enhanced_connections [1, 2] [c2cable]).length = 2 := by
  constructor
  · decide
  · decide

/-- C5 (counterexample): on a loader failure over a store that still
holds a device record, the builder returns the empty payload, not the
claimed reduced-fidelity device-only listing: its devices list is empty
while the claimed first-level fallback would list the stored device. -/
theorem C5_counterexample :
    (DashboardView.get_topology_data s5store).devices = [] ∧
    (spec_device_only_fallback s5store "db down").devices ≠ [] ∧
    DashboardView.get_topology_data s5store ≠ spec_device_only_fallback s5store "db down" := by
  refine ⟨by decide, by decide, by decide⟩

/-- C5 (amended): a total failure of the loader makes both dashboard
builders return, in a single step, the empty topology (empty devices,
sites and connections with zero counts) carrying the error string; both
builders are total functions of the store, so the failure is never
propagated to the caller. -/
theorem C5_single_fallback (store : Store) (e : String)
    (h : store.loaderFails = some e) :
    DashboardView.get_topology_data store = empty_topology_payload SimpleEdge e ∧
    EnhancedDashboardView.get_enhanced_topology_data store = empty_topology_payload Edge e := by
  constructor
  · unfold DashboardView.get_topology_data
    rw [h]
    rfl
  · unfold EnhancedDashboardView.get_enhanced_topology_data
    rw [h]
    rfl

/-- C5 (witness): the amended theorem applied to a concrete store whose
loader fails with message db down. -/
theorem C5_witness :
    s5store.loaderFails = some "db down" ∧
    DashboardView.get_topology_data s5store = empty_topology_payload SimpleEdge "db down" ∧
    EnhancedDashboardView.get_enhanced_topology_data s5store = empty_topology_payload Edge "db down" :=
  ⟨rfl, (C5_single_fallback s5store "db down" rfl).1, (C5_single_fallback s5store "db down" rfl).2⟩

theorem resolve_a_termination_eq_probes (ids : List Nat) (t : Term) :
    EnhancedDashboardView.resolve_a_termination ids t =
      (EnhancedDashboardView.probe_nested ids t <|>
       EnhancedDashboardView.probe_direct ids t <|>
       EnhancedDashboardView.probe_interface_shaped ids t) := by
  rcases t with ⟨nested, device, hid, hname, nm, sr⟩
  unfold EnhancedDashboardView.resolve_a_termination EnhancedDashboardView.resolve_a_direct
    EnhancedDashboardView.resolve_a_iface EnhancedDashboardView.probe_nested
    EnhancedDashboardView.probe_direct EnhancedDashboardView.probe_interface_shaped
  rcases nested with _ | ⟨ndOpt, nn⟩ <;> rcases device with _ | d <;> cases hid <;>
    simp only [] <;> (repeat' split) <;> simp_all

theorem resolve_b_termination_eq_probes (ids : List Nat) (t : Term) :
    EnhancedDashboardView.resolve_b_termination ids t =
      (EnhancedDashboardView.probe_nested ids t <|>
       EnhancedDashboardView.probe_direct ids t <|>
       EnhancedDashboardView.probe_interface_shaped ids t) := by
  rcases t with ⟨nested, device, hid, hname, nm, sr⟩
  unfold EnhancedDashboardView.resolve_b_termination EnhancedDashboardView.resolve_b_direct
    EnhancedDashboardView.resolve_b_iface EnhancedDashboardView.probe_nested
    EnhancedDashboardView.probe_direct EnhancedDashboardView.probe_interface_shaped
  rcases nested with _ | ⟨ndOpt, nn⟩ <;> rcases device with _ | d <;> cases hid <;>
    simp only [] <;> (repeat' split) <;> simp_all

theorem resolve_a_side_eq_probe (ids : List Nat) (ts : List Term) :
    EnhancedDashboardView.resolve_a_side ids ts =
      EnhancedDashboardView.ordered_probe_with_membership ids ts := by
  induction ts with
  | nil => rfl
  | cons t rest ih =>
    simp only [EnhancedDashboardView.resolve_a_side,
      EnhancedDashboardView.ordered_probe_with_membership,
      resolve_a_termination_eq_probes]
    cases EnhancedDashboardView.probe_nested ids t <|>
        EnhancedDashboardView.probe_direct ids t <|>
        EnhancedDashboardView.probe_interface_shaped ids t with
    | some r => rfl
    | none => exact ih

theorem resolve_b_side_eq_probe (ids : List Nat) (ts : List Term) :
    EnhancedDashboardView.resolve_b_side ids ts =
      EnhancedDashboardView.ordered_probe_with_membership ids ts := by
  induction ts with
  | nil => rfl
  | cons t rest ih =>
    simp only [EnhancedDashboardView.resolve_b_side,
      EnhancedDashboardView.ordered_probe_with_membership,
      resolve_b_termination_eq_probes]
    cases EnhancedDashboardView.probe_nested ids t <|>
        EnhancedDashboardView.probe_direct ids t <|>
        EnhancedDashboardView.probe_interface_shaped ids t with
    | some r => rfl
    | none => exact ih

/-- C3 (counterexample): the claim includes DashboardView._get_topology_data
among the builders applying the three-step ordered probe, but that view
probes only the direct device attribute: a termination carrying only a
nested termination object that exposes device 1 resolves under the
claimed ordered procedure yet resolves to nothing in the simple view. -/
theorem C3_counterexample :
    claim_ordered_resolution [termNested1] = some 1 ∧
    DashboardView.resolve_side [termNested1] = none := by
  refine ⟨by decide, by decide⟩

/-- C3 (amended): in EnhancedDashboardView._process_cable_connection each
side is resolved by traversing the termination collection and attempting,
per termination and in order, (a) the nested termination's device, (b)
the direct device attribute, (c) the interface-shaped probe, each attempt
additionally requiring the resolved device id to belong to the loaded
set, stopping at the first termination where an attempt succeeds; the A
and B sides use the identical procedure. DashboardView._get_topology_data
instead probes only the direct device attribute. -/
theorem C3_ordered_probe :
    (∀ (ids : List Nat) (ts : List Term),
      EnhancedDashboardView.resolve_a_side ids ts =
        EnhancedDashboardView.resolve_b_side ids ts) ∧
    (∀ (ids : List Nat) (ts : List Term),
      EnhancedDashboardView.resolve_a_side ids ts =
        EnhancedDashboardView.ordered_probe_with_membership ids ts) :=
  ⟨fun ids ts => (resolve_a_side_eq_probe ids ts).trans (resolve_b_side_eq_probe ids ts).symm,
   resolve_a_side_eq_probe⟩

theorem process_cable_none_of_bad (ids : List Nat) (c : Cable)
    (h : c.aRaises = true ∨ c.bRaises = true ∨ c.aTerms = [] ∨ c.bTerms = []) :
    DashboardView.process_cable ids c = none := by
  unfold DashboardView.process_cable
  by_cases hr : (c.aRaises || c.bRaises) = true
  · rw [if_pos hr]
  · rw [if_neg hr]
    rcases h with h | h | h | h
    · simp [h] at hr
    · simp [h] at hr
    · rw [h]
      cases DashboardView.resolve_side c.bTerms <;> rfl
    · rw [h]
      cases DashboardView.resolve_side c.aTerms <;> rfl

theorem a_side_connected_false_of_bad (ids : List Nat) (c : Cable)
    (h : c.aRaises = true ∨ c.aTerms = []) :
    EnhancedDashboardView.a_side_connected ids c = false := by
  unfold EnhancedDashboardView.a_side_connected
  rcases h with h | h
  · rw [if_pos h]
  · by_cases hr : c.aRaises = true
    · rw [if_pos hr]
    · rw [if_neg hr, h]
      rfl

theorem b_side_connected_false_of_bad (ids : List Nat) (c : Cable)
    (h : c.bRaises = true ∨ c.bTerms = []) :
    EnhancedDashboardView.b_side_connected ids c = false := by
  unfold EnhancedDashboardView.b_side_connected
  rcases h with h | h
  · rw [if_pos h]
  · by_cases hr : c.bRaises = true
    · rw [if_pos hr]
    · rw [if_neg hr, h]
      rfl

/-- C4: a cable whose termination traversal raises on either side, or
either of whose termination collections is empty, contributes no edge in
either builder, and removing it from the head of the batch leaves the
connections computed from the remaining cables unchanged (the per-cable
error is caught locally and iteration continues). -/
theorem C4_error_isolation (ids : List Nat) (c : Cable) (rest : List Cable)
    (h : c.aRaises = true ∨ c.bRaises = true ∨ c.aTerms = [] ∨ c.bTerms = []) :
    DashboardView.connections_of ids (c :: rest) = DashboardView.connections_of ids rest ∧
    EnhancedDashboardView.enhanced_connections ids (c :: rest) =
      EnhancedDashboardView.enhanced_connections ids rest := by
  constructor
  · unfold DashboardView.connections_of
    rw [List.filterMap_cons, process_cable_none_of_bad ids c h]
  · unfold EnhancedDashboardView.enhanced_connections
    have hff : (EnhancedDashboardView.a_side_connected ids c &&
        EnhancedDashboardView.b_side_connected ids c) = false := by
      rcases h with h | h | h | h
      · rw [a_side_connected_false_of_bad ids c (Or.inl h)]
        rfl
      · rw [b_side_connected_false_of_bad ids c (Or.inl h), Bool.and_false]
      · rw [a_side_connected_false_of_bad ids c (Or.inr h)]
        rfl
      · rw [b_side_connected_false_of_bad ids c (Or.inr h), Bool.and_false]
    simp only [EnhancedDashboardView.device_connected_cables, hff]
    rfl

/-- C4 (witness): the theorem applied to a concrete batch whose first
cable raises on its A side, followed by a resolvable cable. -/
theorem C4_witness :
    (c4bad.aRaises = true ∨ c4bad.bRaises = true ∨ c4bad.aTerms = [] ∨ c4bad.bTerms = []) ∧
    DashboardView.connections_of [1, 2] (c4bad :: [c4good]) =
      DashboardView.connections_of [1, 2] [c4good] ∧
    EnhancedDashboardView.enhanced_connections [1, 2] (c4bad :: [c4good]) =
      EnhancedDashboardView.enhanced_connections [1, 2] [c4good] :=
  ⟨Or.inl rfl,
   (C4_error_isolation [1, 2] c4bad [c4good] (Or.inl rfl)).1,
   (C4_error_isolation [1, 2] c4bad [c4good] (Or.inl rfl)).2⟩

/-- C9: every payload of both dashboard builders, the whole-request error
fallback included, has summary counts equal to the lengths of its lists
and a flat device list that is the concatenation of the per-site device
lists in site order. -/
theorem C9_payload_invariant (store : Store) :
    payload_invariant (DashboardView.get_topology_data store) ∧
    payload_invariant (EnhancedDashboardView.get_enhanced_topology_data store) := by
  constructor
  · unfold payload_invariant DashboardView.get_topology_data
    cases store.loaderFails with
    | some e => exact ⟨rfl, rfl, rfl, rfl⟩
    | none =>
      refine ⟨rfl, rfl, rfl, ?_⟩
      simp only [foldl_extend_eq_flatten, List.nil_append]
  · unfold payload_invariant EnhancedDashboardView.get_enhanced_topology_data
    cases store.loaderFails with
    | some e => exact ⟨rfl, rfl, rfl, rfl⟩
    | none =>
      refine ⟨rfl, rfl, rfl, ?_⟩
      simp only [foldl_extend_eq_flatten, List.nil_append]
